import Mathlib

/-!
Verification of the TTS provider selection/fallback chain of the Rap-Bots
repository (`UserTTSManager` in `src/unnamed/part_000`, `GroqTTSService` in
`src/unnamed/part_001`, and the earlier two-vendor variant in
`src/server/services/user-tts-manager.ts`).

The embedding is shallow: the stateful manager methods become explicit
state-passing functions, external vendor SDK calls and the storage
collaborator become oracle parameters (`Oracles`, `TestOracles`), JavaScript
exceptions become `Except`, and JavaScript string truthiness (`""` is falsy)
is modelled by `nonEmptyStr`.  Besides the returned value, `generateTTS`
also returns the list of vendor calls it attempted (`Call`), tagged with the
code block that issued them (`Phase`), so that claims about *which* vendor
is attempted, in *which* order, and with *which* credential are directly
statable.
-/

/-- The `{ audioUrl, duration }` shape every TTS path resolves to. -/
structure TTSResult where
  audioUrl : String
  duration : Nat
deriving DecidableEq, Repr

/-- The user record read from the storage collaborator: preferred service
plus the optional per-vendor API keys consulted by `UserTTSManager`. -/
structure User where
  preferredTtsService : Option String
  openaiApiKey : Option String
  groqApiKey : Option String
  elevenlabsApiKey : Option String
  myshellApiKey : Option String
deriving DecidableEq, Repr

/-- The process-wide environment variables read by `UserTTSManager`
(`process.env.MYSHELL_API_KEY`, `ELEVENLABS_API_KEY`, `GROQ_API_KEY`,
`OPENAI_API_KEY`). -/
structure Env where
  myshellKey : Option String
  elevenlabsKey : Option String
  groqKey : Option String
  openaiKey : Option String
deriving DecidableEq, Repr

/-- `TTSGenerationOptions` from `src/unnamed/part_000`. -/
structure TTSGenerationOptions where
  characterId : String
  characterName : Option String
  gender : Option String
  voiceStyle : Option String
  speedMultiplier : Option ℚ
deriving DecidableEq, Repr

/-- The option object `{ voiceStyle, characterName, gender, speedMultiplier }`
the manager forwards to each vendor client's `generateTTS`. -/
structure VoiceOpts where
  voiceStyle : Option String
  characterName : Option String
  gender : Option String
  speedMultiplier : Option ℚ
deriving DecidableEq, Repr

/-- Projection of the manager options onto the object forwarded to vendors. -/
def subOpts (o : TTSGenerationOptions) : VoiceOpts :=
  { voiceStyle := o.voiceStyle
    characterName := o.characterName
    gender := o.gender
    speedMultiplier := o.speedMultiplier }

/-- Which code block of `generateTTS` issued a vendor call: the CYPHER-9000
override, the preferred-service branch, or `useSystemTTS`. -/
inductive Phase where
  | cypherForce
  | preference
  | system
deriving DecidableEq, Repr

/-- The four external TTS vendors wrapped by `UserTTSManager`. -/
inductive Vendor where
  | myshell
  | openai
  | groq
  | elevenlabs
deriving DecidableEq, Repr

/-- A record of one attempted vendor call: issuing block, vendor, the API
key used, and (for MyShell) the voice-cloning flag. -/
structure Call where
  phase : Phase
  vendor : Vendor
  apiKey : String
  voiceCloning : Bool
deriving DecidableEq, Repr

/-- Oracles for the four vendor clients' `generateTTS` methods.  Arguments:
API key (constructor argument of the cached instance), then for MyShell the
voice-cloning flag, then the manager's `(text, characterId, options)`
arguments.  A JavaScript throw/rejection is `Except.error`. -/
structure Oracles where
  myshell : String → Bool → String → String → VoiceOpts → Except String TTSResult
  openai : String → String → String → VoiceOpts → Except String TTSResult
  groq : String → String → String → VoiceOpts → Except String TTSResult
  elevenlabs : String → String → String → VoiceOpts → Except String TTSResult

/-- JavaScript string truthiness: `undefined`/`null`/`""` are falsy.  An
absent-or-empty key behaves like no key at all. -/
def nonEmptyStr : Option String → Option String
  | none => none
  | some s => if s = "" then none else some s

/-- `a || b` on optional key strings, as in `user.groqApiKey ||
process.env.GROQ_API_KEY`. -/
def jsOrKey (u e : Option String) : Option String :=
  match nonEmptyStr u with
  | some k => some k
  | none => nonEmptyStr e

/-- `user.preferredTtsService || 'myshell'` (the `part_000` default). -/
def prefString (user : User) : String :=
  (nonEmptyStr user.preferredTtsService).getD "myshell"

/-- The terminal empty-audio result `{ audioUrl: "", duration:
Math.floor(text.length / 15) }`. -/
def sentinel (text : String) : TTSResult :=
  { audioUrl := "", duration := text.length / 15 }

/-- One guarded vendor attempt inside its own `try`/`catch`: success returns
the result; a throw is logged and absorbed (`none`).  Either way the call is
recorded. -/
def tryVendor (ph : Phase) (v : Vendor) (apiKey : String) (cloning : Bool)
    (res : Except String TTSResult) : Option TTSResult × List Call :=
  match res with
  | .ok r => (some r, [⟨ph, v, apiKey, cloning⟩])
  | .error _ => (none, [⟨ph, v, apiKey, cloning⟩])

/-- Sequencing of two early-return blocks: if the first block returned, the
second never runs; otherwise its calls are appended. -/
def chainStep (a b : Option TTSResult × List Call) : Option TTSResult × List Call :=
  match a with
  | (some r, cs) => (some r, cs)
  | (none, cs) => (b.1, cs ++ b.2)

/-- The `options.characterId === 'cypher'` override block of
`generateTTS` (`part_000` lines 67-86): force Groq with the user's key,
else the system key; with no key, log and fall through. -/
def cypherOverride (o : Oracles) (env : Env) (user : User) (text : String)
    (opts : TTSGenerationOptions) : Option TTSResult × List Call :=
  if opts.characterId = "cypher" then
    match jsOrKey user.groqApiKey env.groqKey with
    | some apiKey =>
        tryVendor .cypherForce .groq apiKey false
          (o.groq apiKey text opts.characterId (subOpts opts))
    | none => (none, [])
  else (none, [])

/-- The `preferredService === 'myshell'` branch: user key, else system key,
voice cloning on. -/
def myshellBranch (o : Oracles) (env : Env) (user : User) (pref text : String)
    (opts : TTSGenerationOptions) : Option TTSResult × List Call :=
  if pref = "myshell" then
    match jsOrKey user.myshellApiKey env.myshellKey with
    | some apiKey =>
        tryVendor .preference .myshell apiKey true
          (o.myshell apiKey true text opts.characterId (subOpts opts))
    | none => (none, [])
  else (none, [])

/-- The `preferredService === 'openai' && user.openaiApiKey` branch: note
the source consults only the user key here, never `OPENAI_API_KEY`. -/
def openaiBranch (o : Oracles) (user : User) (pref text : String)
    (opts : TTSGenerationOptions) : Option TTSResult × List Call :=
  if pref = "openai" then
    match nonEmptyStr user.openaiApiKey with
    | some apiKey =>
        tryVendor .preference .openai apiKey false
          (o.openai apiKey text opts.characterId (subOpts opts))
    | none => (none, [])
  else (none, [])

/-- The `preferredService === 'groq'` branch: user key, else system key. -/
def groqBranch (o : Oracles) (env : Env) (user : User) (pref text : String)
    (opts : TTSGenerationOptions) : Option TTSResult × List Call :=
  if pref = "groq" then
    match jsOrKey user.groqApiKey env.groqKey with
    | some apiKey =>
        tryVendor .preference .groq apiKey false
          (o.groq apiKey text opts.characterId (subOpts opts))
    | none => (none, [])
  else (none, [])

/-- The `preferredService === 'elevenlabs'` branch: user key, else system
key. -/
def elevenlabsBranch (o : Oracles) (env : Env) (user : User) (pref text : String)
    (opts : TTSGenerationOptions) : Option TTSResult × List Call :=
  if pref = "elevenlabs" then
    match jsOrKey user.elevenlabsApiKey env.elevenlabsKey with
    | some apiKey =>
        tryVendor .preference .elevenlabs apiKey false
          (o.elevenlabs apiKey text opts.characterId (subOpts opts))
    | none => (none, [])
  else (none, [])

/-- The four preference branches of `generateTTS` in source order
(myshell, openai, groq, elevenlabs); at most the branch matching
`preferredService` can fire. -/
def prefPhase (o : Oracles) (env : Env) (user : User) (text : String)
    (opts : TTSGenerationOptions) : Option TTSResult × List Call :=
  let pref := prefString user
  chainStep (myshellBranch o env user pref text opts)
    (chainStep (openaiBranch o user pref text opts)
      (chainStep (groqBranch o env user pref text opts)
        (elevenlabsBranch o env user pref text opts)))

/-- One environment-gated attempt inside `useSystemTTS`: skipped silently
when the environment variable is falsy. -/
def sysAttempt (envKey : Option String) (v : Vendor) (cloning : Bool)
    (call : String → Except String TTSResult) : Option TTSResult × List Call :=
  match nonEmptyStr envKey with
  | some apiKey => tryVendor .system v apiKey cloning (call apiKey)
  | none => (none, [])

/-- The four environment-gated attempts of `useSystemTTS` in source order:
MyShell, ElevenLabs, Groq, OpenAI. -/
def sysChain (o : Oracles) (env : Env) (text : String)
    (opts : TTSGenerationOptions) : Option TTSResult × List Call :=
  chainStep (sysAttempt env.myshellKey .myshell true
      (fun k => o.myshell k true text opts.characterId (subOpts opts)))
    (chainStep (sysAttempt env.elevenlabsKey .elevenlabs false
        (fun k => o.elevenlabs k text opts.characterId (subOpts opts)))
      (chainStep (sysAttempt env.groqKey .groq false
          (fun k => o.groq k text opts.characterId (subOpts opts)))
        (sysAttempt env.openaiKey .openai false
          (fun k => o.openai k text opts.characterId (subOpts opts)))))

/-- `useSystemTTS` (`part_000` lines 183-259): MyShell, then ElevenLabs,
then Groq, then OpenAI, each gated on its environment variable; when all
are absent or fail, the empty-audio sentinel. -/
def useSystemTTS (o : Oracles) (env : Env) (text : String)
    (opts : TTSGenerationOptions) : TTSResult × List Call :=
  match sysChain o env text opts with
  | (some res, cs) => (res, cs)
  | (none, cs) => (sentinel text, cs)

/-- The preference phase followed by the `return await this.useSystemTTS`
fallback. -/
def prefAndSystem (o : Oracles) (env : Env) (user : User) (text : String)
    (opts : TTSGenerationOptions) : TTSResult × List Call :=
  match prefPhase o env user text opts with
  | (some r, cs) => (r, cs)
  | (none, cs) => ((useSystemTTS o env text opts).1, cs ++ (useSystemTTS o env text opts).2)

/-- `UserTTSManager.generateTTS` from `src/unnamed/part_000`.  `userRes` is
the value of `await storage.getUser(userId)`; `none` models the absent user
record, whose `throw new Error('User not found')` is absorbed by the outer
`catch`, which returns the sentinel.  Inner vendor throws are absorbed by
their local `catch` blocks, so the function is total: it always produces a
`TTSResult` (paired here with the trace of attempted vendor calls). -/
def generateTTS (o : Oracles) (env : Env) (userRes : Option User)
    (text userId : String) (opts : TTSGenerationOptions) : TTSResult × List Call :=
  match userRes with
  | none => (sentinel text, [])
  | some user =>
    match cypherOverride o env user text opts with
    | (some r, cs) => (r, cs)
    | (none, cs) =>
        ((prefAndSystem o env user text opts).1,
          cs ++ (prefAndSystem o env user text opts).2)

example :
    generateTTS
      { myshell := fun _ _ _ _ _ => .error "down"
        openai := fun _ _ _ _ => .error "down"
        groq := fun _ _ _ _ => .error "down"
        elevenlabs := fun _ _ _ _ => .error "down" }
      ⟨none, none, none, none⟩ none "hello" "u1"
      ⟨"silk", none, none, none, none⟩ = (⟨"", 0⟩, []) := by
  decide

/-!
## The Groq vendor client (`GroqTTSService` in `src/unnamed/part_001`)

String processing works on `List Char`.  `String.replace(/x/g, repl)` for a
single-character pattern is `replaceChar`; the lazy bracket-stripping
regexes `/\[.*?\]/g` and `/\*.*?\*/g` are `stripTags` (a JavaScript regex
`.` does not cross a line terminator, hence the newline check); `/\s+/g →
' '` is `collapseWs`; `trim` is `trimWs`.
-/

/-- JavaScript `\s` on the characters that can realistically occur here
(space, tab, newline, carriage return, vertical tab, form feed). -/
def isJsWs (c : Char) : Bool :=
  c = ' ' || c = '\t' || c = '\n' || c = '\r' || c.toNat = 11 || c.toNat = 12

/-- `text.replace(/c/g, repl)` for a single-character pattern: every
occurrence replaced, replacements not re-scanned. -/
def replaceChar (c : Char) (repl : List Char) : List Char → List Char
  | [] => []
  | x :: xs => if x = c then repl ++ replaceChar c repl xs else x :: replaceChar c repl xs

/-- Scan for the closing delimiter of a lazy `.*?` match: the tail after
the first `close`, unless a line terminator intervenes (a regex `.` does
not match it, so the match fails). -/
def findCloseTail (close : Char) : List Char → Option (List Char)
  | [] => none
  | c :: cs =>
      if c = close then some cs
      else if c = '\n' ∨ c = '\r' then none
      else findCloseTail close cs

/-- Recursion core of `stripTags`.  Each step consumes at least one input
character and one unit of fuel, so fuel equal to the input length (supplied
by `stripTags`) never runs out; fuel makes the recursion structural, hence
kernel-reducible. -/
def stripTagsAux (openC closeC : Char) : Nat → List Char → List Char
  | 0, l => l
  | _ + 1, [] => []
  | fuel + 1, c :: cs =>
      if c = openC then
        match findCloseTail closeC cs with
        | some rest => stripTagsAux openC closeC fuel rest
        | none => c :: stripTagsAux openC closeC fuel cs
      else c :: stripTagsAux openC closeC fuel cs

/-- `text.replace(/\x7bopen\x7d.*?\x7bclose\x7d/g, '')`: drop every lazy
delimited group, scanning left to right. -/
def stripTags (openC closeC : Char) (l : List Char) : List Char :=
  stripTagsAux openC closeC l.length l

/-- `text.replace(/\s+/g, ' ')`: collapse each whitespace run to a single
space.  The flag records whether the previous character was whitespace. -/
def collapseWs (prevWs : Bool) : List Char → List Char
  | [] => []
  | c :: cs =>
      if isJsWs c then
        if prevWs then collapseWs true cs else ' ' :: collapseWs true cs
      else c :: collapseWs false cs

/-- `String.prototype.trim()`: strip whitespace from both ends. -/
def trimWs (l : List Char) : List Char :=
  ((l.dropWhile isJsWs).reverse.dropWhile isJsWs).reverse

/-- `applyRobotVoiceEffects`: for `cypher`, punctuation becomes explicit
pause/emphasis/query tokens and the text is wrapped in processing markers;
all other characters pass through unchanged. -/
def applyRobotVoiceEffects (text characterId : String) : String :=
  if characterId = "cypher" then
    let robot :=
      replaceChar '?' ". [query]".data
        (replaceChar '!' ". [emphasis]".data
          (replaceChar '.' ". [pause]".data text.data))
    "[processing] " ++ String.mk robot ++ " [systems_online]"
  else text

/-- The `cleanText` computation of `GroqTTSService.generateTTS`: for
`cypher` only emphasis markers are stripped (robot FX tags are kept); for
everyone else all bracketed style tags are stripped too; then whitespace is
normalized and the ends trimmed. -/
def groqCleanText (text characterId : String) : String :=
  let processed := applyRobotVoiceEffects text characterId
  if characterId = "cypher" then
    String.mk (trimWs (collapseWs false (stripTags '*' '*' processed.data)))
  else
    String.mk (trimWs (collapseWs false (stripTags '*' '*' (stripTags '[' ']' processed.data))))

/-- The `characterSpeeds` table of `calculateDynamicSpeed`. -/
def characterSpeeds (characterId : String) : Option ℚ :=
  if characterId = "cypher" then some (3/4)
  else if characterId = "venom" then some (9/10)
  else if characterId = "razor" then some (11/10)
  else if characterId = "silk" then some 1
  else none

/-- The `styleModifiers` table of `calculateDynamicSpeed`. -/
def styleModifiers (style : String) : Option ℚ :=
  if style = "aggressive" then some (6/5)
  else if style = "confident" then some 1
  else if style = "smooth" then some (19/20)
  else if style = "intense" then some (23/20)
  else if style = "playful" then some (11/10)
  else none

/-- `GroqTTSService.calculateDynamicSpeed`: base speed per character
(default 1.0), times the style modifier (`voiceStyle || 'confident'`,
unknown styles default 1.0), times the user multiplier (default parameter
1.0), clamped to `[0.5, 2.0]`.  (An empty-string style is falsy in the
source and selects `'confident'`; here it misses the table and takes the
`|| 1.0` default, the same value.) -/
def calculateDynamicSpeed (characterId : String) (voiceStyle : Option String)
    (speedMultiplier : Option ℚ) : ℚ :=
  let baseSpeed := (characterSpeeds characterId).getD 1
  let styleModifier := (styleModifiers (voiceStyle.getD "confident")).getD 1
  let finalSpeed := baseSpeed * styleModifier * speedMultiplier.getD 1
  max (1/2) (min 2 finalSpeed)

/-- The gender-partitioned fallback voice lists. -/
def maleVoices : List String :=
  ["Fritz-PlayAI", "Thunder-PlayAI", "Basil-PlayAI", "Cillian-PlayAI", "Calum-PlayAI"]

/-- The female fallback voice list. -/
def femaleVoices : List String :=
  ["Celeste-PlayAI", "Cheyenne-PlayAI", "Gail-PlayAI", "Indigo-PlayAI", "Deedee-PlayAI"]

/-- The explicit character-to-voice table of `getVoiceForCharacter`. -/
def voiceMap (characterId : String) : Option String :=
  if characterId = "razor" then some "Cheyenne-PlayAI"
  else if characterId = "venom" then some "Thunder-PlayAI"
  else if characterId = "silk" then some "Basil-PlayAI"
  else if characterId = "cypher" then some "Fritz-PlayAI"
  else none

/-- `getVoiceForCharacter`: table hit wins; otherwise an unseeded random
index into the gender list — modelled by the explicit `rand` source. -/
def getVoiceForCharacter (rand : Nat) (characterId : String) (gender : String) : String :=
  match voiceMap characterId with
  | some v => v
  | none =>
      let voices := if gender = "female" then femaleVoices else maleVoices
      voices.getD (rand % voices.length) "Fritz-PlayAI"

/-- `GroqTTSService.generateTTS`: select the voice, build `cleanText`,
compute the dynamic speed, and call the vendor SDK (`net` oracle, returning
the base64-encoded audio bytes).  Success yields a self-contained data URL
and a duration estimated as `floor(cleanText.length / 15)`; any failure is
rethrown wrapped. -/
def groqServiceGenerateTTS (net : String → ℚ → String → Except String String)
    (rand : Nat) (text characterId : String) (opts : VoiceOpts) : Except String TTSResult :=
  let voice := getVoiceForCharacter rand characterId (opts.gender.getD "male")
  let cleanText := groqCleanText text characterId
  let speed := calculateDynamicSpeed characterId opts.voiceStyle opts.speedMultiplier
  match net voice speed cleanText with
  | .ok b64 =>
      .ok { audioUrl := "data:audio/wav;base64," ++ b64
            duration := cleanText.length / 15 }
  | .error e => .error ("Groq TTS generation failed: " ++ e)

example : groqCleanText "yo" "cypher" = "[processing] yo [systems_online]" := by decide

example : (groqCleanText "yo" "cypher").length = 32 := by decide

/-!
## The provider instance cache

An instance is identified by its allocation number (`Nat`): two
`ProviderInstance`s are reference-equal exactly when the numbers coincide.
`CacheState` carries the four `Map`s of `UserTTSManager` as association
lists plus the allocation counter; a vendor factory call allocates a fresh
number.
-/

/-- The four instance maps of `UserTTSManager` plus the allocation counter
modelling JavaScript object identity. -/
structure CacheState where
  openaiInstances : List (String × Nat)
  groqInstances : List (String × Nat)
  elevenlabsInstances : List (String × Nat)
  myshellInstances : List (String × Nat)
  nextId : Nat
deriving DecidableEq, Repr

/-- `Map.prototype.get`/`has` on an association list. -/
def lookupInst (m : List (String × Nat)) (k : String) : Option Nat :=
  match m.find? (fun p => p.1 = k) with
  | some p => some p.2
  | none => none

/-- The shared body of the four getters: `if (!map.has(k))
map.set(k, factory(k)); return map.get(k)!`. -/
def getInst (m : List (String × Nat)) (nextId : Nat) (k : String) :
    Nat × List (String × Nat) × Nat :=
  match lookupInst m k with
  | some i => (i, m, nextId)
  | none => (nextId, (k, nextId) :: m, nextId + 1)

/-- `getOpenAIInstance`. -/
def getOpenAIInstance (s : CacheState) (apiKey : String) : Nat × CacheState :=
  let r := getInst s.openaiInstances s.nextId apiKey
  (r.1, { s with openaiInstances := r.2.1, nextId := r.2.2 })

/-- `getGroqInstance`. -/
def getGroqInstance (s : CacheState) (apiKey : String) : Nat × CacheState :=
  let r := getInst s.groqInstances s.nextId apiKey
  (r.1, { s with groqInstances := r.2.1, nextId := r.2.2 })

/-- `getElevenLabsInstance`. -/
def getElevenLabsInstance (s : CacheState) (apiKey : String) : Nat × CacheState :=
  let r := getInst s.elevenlabsInstances s.nextId apiKey
  (r.1, { s with elevenlabsInstances := r.2.1, nextId := r.2.2 })

/-- The MyShell composite cache key `` `${apiKey}_${voiceCloning}` ``. -/
def myshellCacheKey (apiKey : String) (voiceCloning : Bool) : String :=
  apiKey ++ "_" ++ (if voiceCloning then "true" else "false")

/-- `getMyShellInstance` (keyed by the composite key). -/
def getMyShellInstance (s : CacheState) (apiKey : String) (voiceCloning : Bool) :
    Nat × CacheState :=
  let r := getInst s.myshellInstances s.nextId (myshellCacheKey apiKey voiceCloning)
  (r.1, { s with myshellInstances := r.2.1, nextId := r.2.2 })

/-- `clearUserInstances`: ignores its `userId` argument and clears all four
maps.  The allocation counter survives — a cleared object is never the same
reference as a future allocation. -/
def clearUserInstances (userId : String) (s : CacheState) : CacheState :=
  { openaiInstances := []
    groqInstances := []
    elevenlabsInstances := []
    myshellInstances := []
    nextId := s.nextId }

/-- The cache at construction of `userTTSManager`: four empty maps. -/
def initialCache : CacheState := ⟨[], [], [], [], 0⟩

/-- Well-formedness of one instance map: every stored instance was
allocated before the counter, and no two entries share an instance. -/
def mapWF (m : List (String × Nat)) (nextId : Nat) : Prop :=
  (∀ p ∈ m, p.2 < nextId) ∧ (m.map Prod.snd).Nodup

/-- Well-formedness of the whole cache (holds at `initialCache` and is
preserved by every getter). -/
def CacheWF (s : CacheState) : Prop :=
  mapWF s.openaiInstances s.nextId ∧ mapWF s.groqInstances s.nextId ∧
    mapWF s.elevenlabsInstances s.nextId ∧ mapWF s.myshellInstances s.nextId

/-!
## `testUserAPIKey`
-/

/-- Oracles for the vendors' `testConnection` methods. -/
structure TestOracles where
  groqTest : String → Except String Bool
  elevenlabsTest : String → Except String Bool
  myshellTest : String → Except String Bool

/-- The empty options object `{}` passed by the OpenAI test call. -/
def emptyVoiceOpts : VoiceOpts := ⟨none, none, none, none⟩

/-- `UserTTSManager.testUserAPIKey`: absent user is `false`; exactly one
service branch can fire, guarded on the *user* key only (the source never
reads `process.env` here, so the result does not depend on any process-wide
credential); the surrounding `catch` turns any thrown vendor call into
`false`; unknown services fall through to `false`.  The source writes the
service branches as consecutive non-`else` `if`s on the same `service`
value, which is equivalent to this `else`-chain. -/
def testUserAPIKey (o : Oracles) (t : TestOracles) (userRes : Option User)
    (service : String) : Bool :=
  match userRes with
  | none => false
  | some user =>
      if service = "openai" then
        match nonEmptyStr user.openaiApiKey with
        | some k =>
            match o.openai k "Test" "test" emptyVoiceOpts with
            | .ok r => decide (0 < r.audioUrl.length)
            | .error _ => false
        | none => false
      else if service = "groq" then
        match nonEmptyStr user.groqApiKey with
        | some k => match t.groqTest k with | .ok b => b | .error _ => false
        | none => false
      else if service = "elevenlabs" then
        match nonEmptyStr user.elevenlabsApiKey with
        | some k => match t.elevenlabsTest k with | .ok b => b | .error _ => false
        | none => false
      else if service = "myshell" then
        match nonEmptyStr user.myshellApiKey with
        | some k => match t.myshellTest k with | .ok b => b | .error _ => false
        | none => false
      else false

/-!
## Derived notions used by the claim statements
-/

/-- Every vendor call of every oracle throws. -/
def AllFail (o : Oracles) : Prop :=
  (∀ k c t ch vo r, o.myshell k c t ch vo ≠ .ok r) ∧
    (∀ k t ch vo r, o.openai k t ch vo ≠ .ok r) ∧
    (∀ k t ch vo r, o.groq k t ch vo ≠ .ok r) ∧
    (∀ k t ch vo r, o.elevenlabs k t ch vo ≠ .ok r)

/-- `r` is a value some vendor call on this request's `(text, options)` can
successfully return. -/
def OkFrom (o : Oracles) (text : String) (opts : TTSGenerationOptions)
    (r : TTSResult) : Prop :=
  (∃ k c, o.myshell k c text opts.characterId (subOpts opts) = .ok r) ∨
    (∃ k, o.openai k text opts.characterId (subOpts opts) = .ok r) ∨
    (∃ k, o.groq k text opts.characterId (subOpts opts) = .ok r) ∨
    (∃ k, o.elevenlabs k text opts.characterId (subOpts opts) = .ok r)

/-- The credential the preference phase of `generateTTS` actually uses for
a given preferred service: user key with process-wide fallback for
myshell/groq/elevenlabs, but the user key *only* for openai (the source's
openai branch never reads `OPENAI_API_KEY`); `none` for unsupported
values. -/
def prefKeyOf (user : User) (env : Env) (pref : String) : Option String :=
  if pref = "myshell" then jsOrKey user.myshellApiKey env.myshellKey
  else if pref = "openai" then nonEmptyStr user.openaiApiKey
  else if pref = "groq" then jsOrKey user.groqApiKey env.groqKey
  else if pref = "elevenlabs" then jsOrKey user.elevenlabsApiKey env.elevenlabsKey
  else none

/-- The vendor the preference phase calls for a given preferred service. -/
def prefVendor (pref : String) : Vendor :=
  if pref = "myshell" then .myshell
  else if pref = "openai" then .openai
  else if pref = "groq" then .groq
  else .elevenlabs

/-- The MyShell branch passes `voiceCloning = true`; the others have no
such flag. -/
def prefCloning (pref : String) : Bool := pref = "myshell"

/-- The vendor call the preference phase issues for a given preferred
service and key. -/
def prefCall (o : Oracles) (pref k text characterId : String) (vo : VoiceOpts) :
    Except String TTSResult :=
  if pref = "myshell" then o.myshell k true text characterId vo
  else if pref = "openai" then o.openai k text characterId vo
  else if pref = "groq" then o.groq k text characterId vo
  else if pref = "elevenlabs" then o.elevenlabs k text characterId vo
  else .error "unsupported"

/-- The user-stored key `testUserAPIKey` consults for a service name. -/
def userKeyFor (user : User) (service : String) : Option String :=
  if service = "openai" then nonEmptyStr user.openaiApiKey
  else if service = "groq" then nonEmptyStr user.groqApiKey
  else if service = "elevenlabs" then nonEmptyStr user.elevenlabsApiKey
  else if service = "myshell" then nonEmptyStr user.myshellApiKey
  else none

/-!
## Concrete fixtures for witnesses and counterexamples
-/

/-- Oracles on which every vendor call throws. -/
def downOracles : Oracles :=
  ⟨fun _ _ _ _ _ => .error "down", fun _ _ _ _ => .error "down",
    fun _ _ _ _ => .error "down", fun _ _ _ _ => .error "down"⟩

/-- Test oracles on which every `testConnection` throws. -/
def downTests : TestOracles :=
  ⟨fun _ => .error "down", fun _ => .error "down", fun _ => .error "down"⟩

/-- A fixed successful vendor result. -/
def okTTS : TTSResult := ⟨"data:audio/wav;base64,AAAA", 1⟩

/-- Oracles on which every vendor call succeeds with `okTTS`. -/
def upOracles : Oracles :=
  ⟨fun _ _ _ _ _ => .ok okTTS, fun _ _ _ _ => .ok okTTS,
    fun _ _ _ _ => .ok okTTS, fun _ _ _ _ => .ok okTTS⟩

/-- A user record storing no preference and no vendor keys. -/
def noKeysUser : User := ⟨none, none, none, none, none⟩

/-- No process-wide keys. -/
def noEnv : Env := ⟨none, none, none, none⟩

/-- Only `MYSHELL_API_KEY` set. -/
def envMyshellOnly : Env := ⟨some "mk", none, none, none⟩

/-- Only `GROQ_API_KEY` set. -/
def envGroqOnly : Env := ⟨none, none, some "gk", none⟩

/-- Only `OPENAI_API_KEY` set. -/
def envOpenaiOnly : Env := ⟨none, none, none, some "sk"⟩

/-- Options for the non-reserved character `silk`. -/
def silkOpts : TTSGenerationOptions := ⟨"silk", none, none, none, none⟩

/-- Options for the reserved robotic character `cypher`. -/
def cypherOpts : TTSGenerationOptions := ⟨"cypher", none, none, none, none⟩

/-- A user preferring groq with no stored keys. -/
def groqPrefUser : User := ⟨some "groq", none, none, none, none⟩

/-- A user preferring openai with no stored keys. -/
def openaiPrefUser : User := ⟨some "openai", none, none, none, none⟩

/-- A user preferring elevenlabs who stores a Groq key `"ug"`. -/
def cypherUser : User := ⟨some "elevenlabs", none, some "ug", none, none⟩

/-- A Groq SDK network oracle that always returns the base64 payload
`"QUJD"`. -/
def net0 : String → ℚ → String → Except String String := fun _ _ _ => .ok "QUJD"

/-- Oracles whose groq entry is the modelled `GroqTTSService` backed by
`net0` (the other vendors throw). -/
def groqBackedOracles : Oracles :=
  ⟨fun _ _ _ _ _ => .error "down", fun _ _ _ _ => .error "down",
    fun _ text characterId vo => groqServiceGenerateTTS net0 0 text characterId vo,
    fun _ _ _ _ => .error "down"⟩

/-- The run of the C6 example: `generateTTS("yo", "u1",
{characterId:"cypher"})`, user exists with no Groq key, `GROQ_API_KEY`
set, Groq backed by the modelled service. -/
def c6run : TTSResult × List Call :=
  generateTTS groqBackedOracles envGroqOnly (some noKeysUser) "yo" "u1" cypherOpts

/-- The cache after constructing one Groq instance for key `"a"`. -/
def oneGroqCache : CacheState := (getGroqInstance initialCache "a").2

/-!
## Theorems
-/

example : groqCleanText "yo" "cypher" = "[processing] yo [systems_online]" := by decide

example : ("[processing] yo [systems_online]" : String).length = 32 := by decide

/-- C5 counterexample.  The claim asserts that with an absent user record
`generateTTS` proceeds to the system fallback chain, so that system
vendors are still attempted.  Concretely: user absent, `MYSHELL_API_KEY`
set, every vendor healthy (`upOracles` would answer `okTTS`).  The actual
run attempts *no* vendor at all (empty trace) and returns the sentinel
directly: the absent-user `throw` is caught by the outer `catch`, which
returns the sentinel without calling `useSystemTTS`. -/
theorem claim_c5_cex :
    generateTTS upOracles envMyshellOnly none "test text" "missing-user" silkOpts
      = (⟨"", 0⟩, []) := by
  decide

/-- C5, amended: when `storage.getUser` returns no user record,
`generateTTS` returns the sentinel `{audioUrl: "", duration:
floor(text.length / 15)}` immediately — the internal `throw new
Error('User not found')` is absorbed by the outer `catch` — and no system
vendor is attempted. -/
theorem claim_c5_amended (o : Oracles) (env : Env) (text userId : String)
    (opts : TTSGenerationOptions) :
    generateTTS o env none text userId opts = (⟨"", text.length / 15⟩, []) := rfl

/-- C3: with a found user storing no vendor API key and no process-wide
vendor environment variable set, `generateTTS` returns exactly
`{audioUrl: "", duration: floor(text.length / 15)}` and the call trace is
empty — no provider client is invoked. -/
theorem claim_c3 (o : Oracles) (env : Env) (user : User) (text userId : String)
    (opts : TTSGenerationOptions)
    (h1 : nonEmptyStr user.openaiApiKey = none)
    (h2 : nonEmptyStr user.groqApiKey = none)
    (h3 : nonEmptyStr user.elevenlabsApiKey = none)
    (h4 : nonEmptyStr user.myshellApiKey = none)
    (h5 : nonEmptyStr env.myshellKey = none)
    (h6 : nonEmptyStr env.elevenlabsKey = none)
    (h7 : nonEmptyStr env.groqKey = none)
    (h8 : nonEmptyStr env.openaiKey = none)
    (htext : text ≠ "") :
    generateTTS o env (some user) text userId opts = (⟨"", text.length / 15⟩, []) := by
  have hg : jsOrKey user.groqApiKey env.groqKey = none := by simp [jsOrKey, h2, h7]
  have hm : jsOrKey user.myshellApiKey env.myshellKey = none := by simp [jsOrKey, h4, h5]
  have he : jsOrKey user.elevenlabsApiKey env.elevenlabsKey = none := by simp [jsOrKey, h3, h6]
  simp [generateTTS, cypherOverride, prefAndSystem, prefPhase, myshellBranch, openaiBranch,
    groqBranch, elevenlabsBranch, useSystemTTS, sysChain, sysAttempt, chainStep, sentinel,
    hg, hm, he, h1, h5, h6, h7, h8]

/-- C3 witness: a concrete keyless user, empty environment, healthy
vendors, eleven-character text. -/
theorem claim_c3_witness :
    generateTTS upOracles noEnv (some noKeysUser) "hello world" "u1" silkOpts
      = (⟨"", 0⟩, []) :=
  claim_c3 upOracles noEnv noKeysUser "hello world" "u1" silkOpts
    rfl rfl rfl rfl rfl rfl rfl rfl (by decide)

/-- C9: the Groq client's dynamic speed is
`clamp(baseSpeedForCharacter * styleModifier * speedMultiplier, 0.5, 2.0)`
with every factor defaulting to 1: the result is always in `[0.5, 2.0]`;
characters outside the explicit table contribute base 1; an absent or
unknown style contributes modifier 1; an absent multiplier behaves as 1. -/
theorem claim_c9 (characterId : String) (voiceStyle : Option String)
    (speedMultiplier : Option ℚ) :
    ((1 : ℚ)/2 ≤ calculateDynamicSpeed characterId voiceStyle speedMultiplier ∧
      calculateDynamicSpeed characterId voiceStyle speedMultiplier ≤ 2) ∧
    calculateDynamicSpeed characterId voiceStyle speedMultiplier =
      max (1/2) (min 2 ((characterSpeeds characterId).getD 1 *
        (styleModifiers (voiceStyle.getD "confident")).getD 1 *
        speedMultiplier.getD 1)) ∧
    (characterId ≠ "cypher" → characterId ≠ "venom" → characterId ≠ "razor" →
      characterId ≠ "silk" →
      calculateDynamicSpeed characterId voiceStyle speedMultiplier =
        max (1/2) (min 2 ((styleModifiers (voiceStyle.getD "confident")).getD 1 *
          speedMultiplier.getD 1))) ∧
    (voiceStyle = none →
      calculateDynamicSpeed characterId voiceStyle speedMultiplier =
        max (1/2) (min 2 ((characterSpeeds characterId).getD 1 *
          speedMultiplier.getD 1))) ∧
    (∀ s, voiceStyle = some s → s ≠ "aggressive" → s ≠ "confident" → s ≠ "smooth" →
      s ≠ "intense" → s ≠ "playful" →
      calculateDynamicSpeed characterId voiceStyle speedMultiplier =
        max (1/2) (min 2 ((characterSpeeds characterId).getD 1 *
          speedMultiplier.getD 1))) ∧
    calculateDynamicSpeed characterId voiceStyle none =
      calculateDynamicSpeed characterId voiceStyle (some 1) := by
  refine ⟨⟨le_max_left _ _, max_le (by norm_num) (min_le_left _ _)⟩, rfl, ?_, ?_, ?_, rfl⟩
  · intro hc1 hc2 hc3 hc4
    simp [calculateDynamicSpeed, characterSpeeds, hc1, hc2, hc3, hc4]
  · intro hv
    subst hv
    simp [calculateDynamicSpeed, styleModifiers]
  · intro s hv hs1 hs2 hs3 hs4 hs5
    subst hv
    simp [calculateDynamicSpeed, styleModifiers, hs1, hs2, hs3, hs4, hs5]

/-- C9 witness: an unknown character with an unknown style and multiplier
3 clamps to the upper bound 2. -/
theorem claim_c9_witness :
    calculateDynamicSpeed "zed" (some "odd") (some 3) =
      max (1/2) (min 2 ((styleModifiers ((some "odd").getD "confident")).getD 1 *
        (some (3:ℚ)).getD 1)) ∧
    (1 : ℚ)/2 ≤ calculateDynamicSpeed "zed" (some "odd") (some 3) :=
  ⟨(claim_c9 "zed" (some "odd") (some 3)).2.2.1 (by decide) (by decide) (by decide)
      (by decide),
    (claim_c9 "zed" (some "odd") (some 3)).1.1⟩

/-- C10: `testUserAPIKey` is total (the embedding returns a `Bool` on every
input, mirroring the source whose single vendor attempt sits inside a
`catch`), returns `false` for an absent user, returns `false` whenever the
user stores no key for the requested service — the definition takes no
environment at all, mirroring the source, which never reads `process.env`
here, so a process-wide key cannot change this — and returns `false`
whenever the attempted provider call throws. -/
theorem claim_c10 (o : Oracles) (t : TestOracles) (userRes : Option User)
    (service : String) :
    (userRes = none → testUserAPIKey o t userRes service = false) ∧
    (∀ user, userRes = some user → userKeyFor user service = none →
      testUserAPIKey o t userRes service = false) ∧
    (∀ user k e, userRes = some user →
      (service = "openai" → nonEmptyStr user.openaiApiKey = some k →
        o.openai k "Test" "test" emptyVoiceOpts = .error e →
        testUserAPIKey o t userRes service = false) ∧
      (service = "groq" → nonEmptyStr user.groqApiKey = some k →
        t.groqTest k = .error e → testUserAPIKey o t userRes service = false) ∧
      (service = "elevenlabs" → nonEmptyStr user.elevenlabsApiKey = some k →
        t.elevenlabsTest k = .error e → testUserAPIKey o t userRes service = false) ∧
      (service = "myshell" → nonEmptyStr user.myshellApiKey = some k →
        t.myshellTest k = .error e → testUserAPIKey o t userRes service = false)) := by
  refine ⟨fun h => by subst h; rfl, ?_, ?_⟩
  · intro user h hkey
    subst h
    unfold userKeyFor at hkey
    unfold testUserAPIKey
    split_ifs at hkey ⊢ with hs1 hs2 hs3 hs4
    · simp [hkey]
    · simp [hkey]
    · simp [hkey]
    · simp [hkey]
    · rfl
  · intro user k e h
    subst h
    refine ⟨?_, ?_, ?_, ?_⟩
    · intro hs hk herr
      simp [testUserAPIKey, hs, hk, herr]
    · intro hs hk herr
      simp [testUserAPIKey, hs, hk, herr]
    · intro hs hk herr
      simp [testUserAPIKey, hs, hk, herr]
    · intro hs hk herr
      simp [testUserAPIKey, hs, hk, herr]

/-- C10 witness: absent user, a keyless user with an elevenlabs request,
and a throwing groq test call, all `false`. -/
theorem claim_c10_witness :
    testUserAPIKey downOracles downTests none "groq" = false ∧
    testUserAPIKey downOracles downTests (some noKeysUser) "elevenlabs" = false ∧
    testUserAPIKey downOracles downTests (some cypherUser) "groq" = false :=
  ⟨(claim_c10 downOracles downTests none "groq").1 rfl,
    (claim_c10 downOracles downTests (some noKeysUser) "elevenlabs").2.1
      noKeysUser rfl rfl,
    ((claim_c10 downOracles downTests (some cypherUser) "groq").2.2
      cypherUser "ug" "down" rfl).2.1 rfl rfl rfl⟩

/-- C6 counterexample.  The claim asserts that
`generateTTS("yo", "u1", {characterId:"cypher"})` (user exists, no user
Groq key, `GROQ_API_KEY` set) yields `duration = floor(2/15) = 0`.  The
Groq client computes the duration from `cleanText` — for the robotic
character that is the effect-augmented `"[processing] yo
[systems_online]"` (32 characters) — so the actual duration is
`floor(32/15) = 2`, not 0. -/
theorem claim_c6_cex : c6run.1.duration = 2 ∧ c6run.1.duration ≠ 0 := by
  decide

/-- C6, amended: on that input the result does come from the forced-vendor
Groq path (the trace is exactly one cypher-force Groq call with the
process-wide key), but its duration is `floor(32/15) = 2`, computed from
the robot-effect-processed text, not `floor(2/15) = 0`. -/
theorem claim_c6_amended :
    c6run = (⟨"data:audio/wav;base64,QUJD", 2⟩,
      [⟨.cypherForce, .groq, "gk", false⟩]) := by
  decide

/-- A successful `tryVendor` result can only come from a successful vendor
call. -/
theorem tryVendor_fst_some {ph : Phase} {v : Vendor} {k : String} {c : Bool}
    {res : Except String TTSResult} {r : TTSResult}
    (h : (tryVendor ph v k c res).1 = some r) : res = .ok r := by
  cases res with
  | ok a => simp [tryVendor] at h; subst h; rfl
  | error e => simp [tryVendor] at h

/-- A successful chained result comes from one of the two blocks. -/
theorem chainStep_fst_some {a b : Option TTSResult × List Call} {r : TTSResult}
    (h : (chainStep a b).1 = some r) : a.1 = some r ∨ b.1 = some r := by
  rcases a with ⟨a1, cs⟩
  cases a1 with
  | some x => left; simpa [chainStep] using h
  | none => right; simpa [chainStep] using h

/-- A successful cypher override comes from a successful Groq call. -/
theorem cypherOverride_fst_some {o : Oracles} {env : Env} {user : User}
    {text : String} {opts : TTSGenerationOptions} {r : TTSResult}
    (h : (cypherOverride o env user text opts).1 = some r) :
    ∃ k, o.groq k text opts.characterId (subOpts opts) = .ok r := by
  unfold cypherOverride at h
  split at h
  · cases hk : jsOrKey user.groqApiKey env.groqKey with
    | some k => rw [hk] at h; exact ⟨k, tryVendor_fst_some h⟩
    | none => rw [hk] at h; simp at h
  · simp at h

/-- A successful myshell preference branch comes from a successful MyShell
call. -/
theorem myshellBranch_fst_some {o : Oracles} {env : Env} {user : User}
    {pref text : String} {opts : TTSGenerationOptions} {r : TTSResult}
    (h : (myshellBranch o env user pref text opts).1 = some r) :
    ∃ k c, o.myshell k c text opts.characterId (subOpts opts) = .ok r := by
  unfold myshellBranch at h
  split at h
  · cases hk : jsOrKey user.myshellApiKey env.myshellKey with
    | some k => rw [hk] at h; exact ⟨k, true, tryVendor_fst_some h⟩
    | none => rw [hk] at h; simp at h
  · simp at h

/-- A successful openai preference branch comes from a successful OpenAI
call. -/
theorem openaiBranch_fst_some {o : Oracles} {user : User}
    {pref text : String} {opts : TTSGenerationOptions} {r : TTSResult}
    (h : (openaiBranch o user pref text opts).1 = some r) :
    ∃ k, o.openai k text opts.characterId (subOpts opts) = .ok r := by
  unfold openaiBranch at h
  split at h
  · cases hk : nonEmptyStr user.openaiApiKey with
    | some k => rw [hk] at h; exact ⟨k, tryVendor_fst_some h⟩
    | none => rw [hk] at h; simp at h
  · simp at h

/-- A successful groq preference branch comes from a successful Groq
call. -/
theorem groqBranch_fst_some {o : Oracles} {env : Env} {user : User}
    {pref text : String} {opts : TTSGenerationOptions} {r : TTSResult}
    (h : (groqBranch o env user pref text opts).1 = some r) :
    ∃ k, o.groq k text opts.characterId (subOpts opts) = .ok r := by
  unfold groqBranch at h
  split at h
  · cases hk : jsOrKey user.groqApiKey env.groqKey with
    | some k => rw [hk] at h; exact ⟨k, tryVendor_fst_some h⟩
    | none => rw [hk] at h; simp at h
  · simp at h

/-- A successful elevenlabs preference branch comes from a successful
ElevenLabs call. -/
theorem elevenlabsBranch_fst_some {o : Oracles} {env : Env} {user : User}
    {pref text : String} {opts : TTSGenerationOptions} {r : TTSResult}
    (h : (elevenlabsBranch o env user pref text opts).1 = some r) :
    ∃ k, o.elevenlabs k text opts.characterId (subOpts opts) = .ok r := by
  unfold elevenlabsBranch at h
  split at h
  · cases hk : jsOrKey user.elevenlabsApiKey env.elevenlabsKey with
    | some k => rw [hk] at h; exact ⟨k, tryVendor_fst_some h⟩
    | none => rw [hk] at h; simp at h
  · simp at h

/-- A successful system attempt comes from a successful call with some
key. -/
theorem sysAttempt_fst_some {ek : Option String} {v : Vendor} {c : Bool}
    {call : String → Except String TTSResult} {r : TTSResult}
    (h : (sysAttempt ek v c call).1 = some r) : ∃ k, call k = .ok r := by
  unfold sysAttempt at h
  cases hk : nonEmptyStr ek with
  | some k => rw [hk] at h; exact ⟨k, tryVendor_fst_some h⟩
  | none => rw [hk] at h; simp at h

/-- A successful preference phase comes from some vendor's successful
call. -/
theorem prefPhase_fst_some {o : Oracles} {env : Env} {user : User}
    {text : String} {opts : TTSGenerationOptions} {r : TTSResult}
    (h : (prefPhase o env user text opts).1 = some r) :
    OkFrom o text opts r := by
  simp only [prefPhase] at h
  rcases chainStep_fst_some h with h1 | h'
  · exact Or.inl (myshellBranch_fst_some h1)
  rcases chainStep_fst_some h' with h2 | h''
  · exact Or.inr (Or.inl (openaiBranch_fst_some h2))
  rcases chainStep_fst_some h'' with h3 | h4
  · exact Or.inr (Or.inr (Or.inl (groqBranch_fst_some h3)))
  · exact Or.inr (Or.inr (Or.inr (elevenlabsBranch_fst_some h4)))

/-- A successful system chain comes from some vendor's successful call. -/
theorem sysChain_fst_some {o : Oracles} {env : Env} {text : String}
    {opts : TTSGenerationOptions} {r : TTSResult}
    (h : (sysChain o env text opts).1 = some r) : OkFrom o text opts r := by
  simp only [sysChain] at h
  rcases chainStep_fst_some h with h1 | h'
  · obtain ⟨k, hk⟩ := sysAttempt_fst_some h1
    exact Or.inl ⟨k, true, hk⟩
  rcases chainStep_fst_some h' with h2 | h''
  · obtain ⟨k, hk⟩ := sysAttempt_fst_some h2
    exact Or.inr (Or.inr (Or.inr ⟨k, hk⟩))
  rcases chainStep_fst_some h'' with h3 | h4
  · obtain ⟨k, hk⟩ := sysAttempt_fst_some h3
    exact Or.inr (Or.inr (Or.inl ⟨k, hk⟩))
  · obtain ⟨k, hk⟩ := sysAttempt_fst_some h4
    exact Or.inr (Or.inl ⟨k, hk⟩)

/-- `useSystemTTS` yields the sentinel or some vendor's successful
value. -/
theorem useSystemTTS_fst (o : Oracles) (env : Env) (text : String)
    (opts : TTSGenerationOptions) :
    (useSystemTTS o env text opts).1 = sentinel text ∨
      OkFrom o text opts (useSystemTTS o env text opts).1 := by
  cases h : sysChain o env text opts with
  | mk r? cs =>
    cases r? with
    | some x =>
        right
        have hx : (sysChain o env text opts).1 = some x := by rw [h]
        have := sysChain_fst_some hx
        simpa [useSystemTTS, h] using this
    | none =>
        left
        simp [useSystemTTS, h]

/-- The preference phase plus system fallback yields the sentinel or some
vendor's successful value. -/
theorem prefAndSystem_fst (o : Oracles) (env : Env) (user : User)
    (text : String) (opts : TTSGenerationOptions) :
    (prefAndSystem o env user text opts).1 = sentinel text ∨
      OkFrom o text opts (prefAndSystem o env user text opts).1 := by
  cases h : prefPhase o env user text opts with
  | mk r? cs =>
    cases r? with
    | some x =>
        right
        have hx : (prefPhase o env user text opts).1 = some x := by rw [h]
        have := prefPhase_fst_some hx
        simpa [prefAndSystem, h] using this
    | none =>
        have := useSystemTTS_fst o env text opts
        simpa [prefAndSystem, h] using this

/-- `generateTTS` yields the sentinel or some vendor's successful value. -/
theorem generateTTS_fst (o : Oracles) (env : Env) (userRes : Option User)
    (text userId : String) (opts : TTSGenerationOptions) :
    (generateTTS o env userRes text userId opts).1 = sentinel text ∨
      OkFrom o text opts (generateTTS o env userRes text userId opts).1 := by
  cases userRes with
  | none => left; rfl
  | some user =>
      cases h : cypherOverride o env user text opts with
      | mk r? cs =>
        cases r? with
        | some x =>
            right
            have hx : (cypherOverride o env user text opts).1 = some x := by rw [h]
            obtain ⟨k, hk⟩ := cypherOverride_fst_some hx
            have : OkFrom o text opts x := Or.inr (Or.inr (Or.inl ⟨k, hk⟩))
            simpa [generateTTS, h] using this
        | none =>
            have := prefAndSystem_fst o env user text opts
            simpa [generateTTS, h] using this

/-- C1: `generateTTS` never rejects — the embedding is a total function
into the `{audioUrl, duration}` shape, and for every input (any user
record including an absent one, any credential configuration, any oracle
behaviour) its value is either a successful vendor result or the sentinel;
moreover when every vendor call throws, the result is exactly the terminal
`{audioUrl: "", duration: floor(text.length / 15)}`. -/
theorem claim_c1 (o : Oracles) (env : Env) (userRes : Option User)
    (text userId : String) (opts : TTSGenerationOptions) :
    ((generateTTS o env userRes text userId opts).1 = sentinel text ∨
      OkFrom o text opts (generateTTS o env userRes text userId opts).1) ∧
    (AllFail o → (generateTTS o env userRes text userId opts).1 = sentinel text) := by
  have hmain := generateTTS_fst o env userRes text userId opts
  refine ⟨hmain, fun hAF => ?_⟩
  rcases hmain with hs | hok
  · exact hs
  · exfalso
    rcases hok with ⟨k, c, hkc⟩ | ⟨k, hk⟩ | ⟨k, hk⟩ | ⟨k, hk⟩
    · exact hAF.1 _ _ _ _ _ _ hkc
    · exact hAF.2.1 _ _ _ _ _ hk
    · exact hAF.2.2.1 _ _ _ _ _ hk
    · exact hAF.2.2.2 _ _ _ _ _ hk

/-- C1 witness: all vendors down, user present but keyless. -/
theorem claim_c1_witness :
    AllFail downOracles ∧
      (generateTTS downOracles noEnv (some noKeysUser) "hello" "u1" silkOpts).1 =
        sentinel "hello" := by
  have hAF : AllFail downOracles := by
    refine ⟨?_, ?_, ?_, ?_⟩ <;> intros <;> simp [downOracles]
  exact ⟨hAF, (claim_c1 downOracles noEnv (some noKeysUser) "hello" "u1" silkOpts).2 hAF⟩

/-- C2: for `characterId = "cypher"` the Groq force block runs before any
preference branch, whatever `preferredTtsService` holds: when the user's
Groq key or `GROQ_API_KEY` is available and the call succeeds, its value
is returned and the trace is exactly the one cypher-force Groq call; with
no Groq key at all the override is skipped and the run equals the
preference-then-system chain. -/
theorem claim_c2 (o : Oracles) (env : Env) (user : User) (text userId : String)
    (opts : TTSGenerationOptions) (hchar : opts.characterId = "cypher") :
    (∀ k r, jsOrKey user.groqApiKey env.groqKey = some k →
      o.groq k text opts.characterId (subOpts opts) = .ok r →
      generateTTS o env (some user) text userId opts =
        (r, [⟨.cypherForce, .groq, k, false⟩])) ∧
    (jsOrKey user.groqApiKey env.groqKey = none →
      generateTTS o env (some user) text userId opts =
        prefAndSystem o env user text opts) := by
  constructor
  · intro k r hk hok
    rw [hchar] at hok
    simp [generateTTS, cypherOverride, hchar, hk, hok, tryVendor]
  · intro hk
    simp [generateTTS, cypherOverride, hchar, hk]

/-- C2 witness: a user preferring elevenlabs with user Groq key `"ug"` and
healthy vendors — the cypher force wins with the user's key. -/
theorem claim_c2_witness :
    generateTTS upOracles noEnv (some cypherUser) "yo" "u1" cypherOpts =
      (okTTS, [⟨.cypherForce, .groq, "ug", false⟩]) :=
  (claim_c2 upOracles noEnv cypherUser "yo" "u1" cypherOpts rfl).1 "ug" okTTS rfl rfl

/-- The four preference branches collapse to a single attempt determined
by the preferred service: key per `prefKeyOf` (user key with env fallback,
except openai: user key only), call per `prefCall`; no key, no call. -/
theorem prefPhase_eq (o : Oracles) (env : Env) (user : User) (text : String)
    (opts : TTSGenerationOptions) :
    prefPhase o env user text opts =
      match prefKeyOf user env (prefString user) with
      | some k =>
          tryVendor .preference (prefVendor (prefString user)) k
            (prefCloning (prefString user))
            (prefCall o (prefString user) k text opts.characterId (subOpts opts))
      | none => (none, []) := by
  by_cases hm : prefString user = "myshell"
  · cases hk : jsOrKey user.myshellApiKey env.myshellKey with
    | some k =>
        cases ho : o.myshell k true text opts.characterId (subOpts opts) with
        | ok r =>
            simp [prefPhase, myshellBranch, openaiBranch, groqBranch, elevenlabsBranch,
              prefKeyOf, prefVendor, prefCloning, prefCall, hm, hk, ho, chainStep, tryVendor]
        | error e =>
            simp [prefPhase, myshellBranch, openaiBranch, groqBranch, elevenlabsBranch,
              prefKeyOf, prefVendor, prefCloning, prefCall, hm, hk, ho, chainStep, tryVendor]
    | none =>
        simp [prefPhase, myshellBranch, openaiBranch, groqBranch, elevenlabsBranch,
          prefKeyOf, hm, hk, chainStep]
  by_cases hoai : prefString user = "openai"
  · cases hk : nonEmptyStr user.openaiApiKey with
    | some k =>
        cases ho : o.openai k text opts.characterId (subOpts opts) with
        | ok r =>
            simp [prefPhase, myshellBranch, openaiBranch, groqBranch, elevenlabsBranch,
              prefKeyOf, prefVendor, prefCloning, prefCall, hm, hoai, hk, ho, chainStep,
              tryVendor]
        | error e =>
            simp [prefPhase, myshellBranch, openaiBranch, groqBranch, elevenlabsBranch,
              prefKeyOf, prefVendor, prefCloning, prefCall, hm, hoai, hk, ho, chainStep,
              tryVendor]
    | none =>
        simp [prefPhase, myshellBranch, openaiBranch, groqBranch, elevenlabsBranch,
          prefKeyOf, hm, hoai, hk, chainStep]
  by_cases hg : prefString user = "groq"
  · cases hk : jsOrKey user.groqApiKey env.groqKey with
    | some k =>
        cases ho : o.groq k text opts.characterId (subOpts opts) with
        | ok r =>
            simp [prefPhase, myshellBranch, openaiBranch, groqBranch, elevenlabsBranch,
              prefKeyOf, prefVendor, prefCloning, prefCall, hm, hoai, hg, hk, ho, chainStep,
              tryVendor]
        | error e =>
            simp [prefPhase, myshellBranch, openaiBranch, groqBranch, elevenlabsBranch,
              prefKeyOf, prefVendor, prefCloning, prefCall, hm, hoai, hg, hk, ho, chainStep,
              tryVendor]
    | none =>
        simp [prefPhase, myshellBranch, openaiBranch, groqBranch, elevenlabsBranch,
          prefKeyOf, hm, hoai, hg, hk, chainStep]
  by_cases hel : prefString user = "elevenlabs"
  · cases hk : jsOrKey user.elevenlabsApiKey env.elevenlabsKey with
    | some k =>
        cases ho : o.elevenlabs k text opts.characterId (subOpts opts) with
        | ok r =>
            simp [prefPhase, myshellBranch, openaiBranch, groqBranch, elevenlabsBranch,
              prefKeyOf, prefVendor, prefCloning, prefCall, hm, hoai, hg, hel, hk, ho,
              chainStep, tryVendor]
        | error e =>
            simp [prefPhase, myshellBranch, openaiBranch, groqBranch, elevenlabsBranch,
              prefKeyOf, prefVendor, prefCloning, prefCall, hm, hoai, hg, hel, hk, ho,
              chainStep, tryVendor]
    | none =>
        simp [prefPhase, myshellBranch, openaiBranch, groqBranch, elevenlabsBranch,
          prefKeyOf, hm, hoai, hg, hel, hk, chainStep]
  · simp [prefPhase, myshellBranch, openaiBranch, groqBranch, elevenlabsBranch,
      prefKeyOf, hm, hoai, hg, hel, chainStep]

/-- C4 counterexample.  The claim asserts that in the preference phase the
selected vendor is attempted with the user key when present and otherwise
with the process-wide credential for that same vendor.  Concretely:
preferred service openai, no user key, `OPENAI_API_KEY = "sk"` set, every
vendor healthy.  The preference phase makes *no* call (the openai branch
guards on the user key only); the single attempt in the trace is the
system-phase OpenAI call of `useSystemTTS`, not a preference-phase one. -/
theorem claim_c4_cex :
    (generateTTS upOracles envOpenaiOnly (some openaiPrefUser) "hi" "u1" silkOpts).2 =
      [⟨.system, .openai, "sk", false⟩] ∧
    ∀ c ∈ (generateTTS upOracles envOpenaiOnly (some openaiPrefUser) "hi" "u1" silkOpts).2,
      c.phase ≠ .preference := by
  decide

/-- C4, amended: in the preference phase, for preferred service myshell,
groq, or elevenlabs the vendor is attempted with the user key when present
and otherwise with the process-wide credential for the same vendor, but
for openai only the user-supplied key is consulted (the phase is skipped
when it is absent even if `OPENAI_API_KEY` is set); when the effective key
(`prefKeyOf`) is absent the phase makes no call and the run equals
`useSystemTTS`; a successful attempt returns its value; a thrown attempt
is logged and execution continues into `useSystemTTS` without propagating
the error.  (Stated away from the cypher override, which claim C2
covers.) -/
theorem claim_c4_amended (o : Oracles) (env : Env) (user : User)
    (text userId : String) (opts : TTSGenerationOptions)
    (hchar : opts.characterId ≠ "cypher") :
    (∀ k r, prefKeyOf user env (prefString user) = some k →
        prefCall o (prefString user) k text opts.characterId (subOpts opts) = .ok r →
        generateTTS o env (some user) text userId opts =
          (r, [⟨.preference, prefVendor (prefString user), k,
            prefCloning (prefString user)⟩])) ∧
    (∀ k e, prefKeyOf user env (prefString user) = some k →
        prefCall o (prefString user) k text opts.characterId (subOpts opts) = .error e →
        generateTTS o env (some user) text userId opts =
          ((useSystemTTS o env text opts).1,
            ⟨.preference, prefVendor (prefString user), k, prefCloning (prefString user)⟩ ::
              (useSystemTTS o env text opts).2)) ∧
    (prefKeyOf user env (prefString user) = none →
        generateTTS o env (some user) text userId opts = useSystemTTS o env text opts) := by
  refine ⟨?_, ?_, ?_⟩
  · intro k r hk hok
    have hpp := prefPhase_eq o env user text opts
    simp only [hk, hok, tryVendor] at hpp
    simp [generateTTS, cypherOverride, hchar, prefAndSystem, hpp]
  · intro k e hk herr
    have hpp := prefPhase_eq o env user text opts
    simp only [hk, herr, tryVendor] at hpp
    simp [generateTTS, cypherOverride, hchar, prefAndSystem, hpp]
  · intro hk
    have hpp := prefPhase_eq o env user text opts
    simp only [hk] at hpp
    simp [generateTTS, cypherOverride, hchar, prefAndSystem, hpp]

/-- C4 witness: preferred groq, no user key, `GROQ_API_KEY = "gk"`,
healthy vendors — the preference phase attempts groq with the system
key. -/
theorem claim_c4_witness :
    generateTTS upOracles envGroqOnly (some groqPrefUser) "hi" "u1" silkOpts =
      (okTTS, [⟨.preference, .groq, "gk", false⟩]) :=
  (claim_c4_amended upOracles envGroqOnly groqPrefUser "hi" "u1" silkOpts
    (by decide)).1 "gk" okTTS rfl rfl

/-- A cache lookup hit names an entry of the map. -/
theorem lookupInst_mem {m : List (String × Nat)} {k : String} {i : Nat}
    (h : lookupInst m k = some i) : (k, i) ∈ m := by
  unfold lookupInst at h
  cases hf : m.find? (fun p => p.1 = k) with
  | none => rw [hf] at h; simp at h
  | some p =>
      rw [hf] at h
      have hp := List.find?_some hf
      have hmem := List.mem_of_find?_eq_some hf
      obtain ⟨a, b⟩ := p
      simp at hp h
      subst hp
      subst h
      exact hmem

/-- In a well-formed map every cached instance predates the counter. -/
theorem lookupInst_lt {m : List (String × Nat)} {nid : Nat} {k : String} {i : Nat}
    (hWF : mapWF m nid) (h : lookupInst m k = some i) : i < nid :=
  hWF.1 _ (lookupInst_mem h)

/-- In a well-formed map an instance determines its key. -/
theorem lookupInst_inj {m : List (String × Nat)} {nid : Nat} {k k' : String} {i : Nat}
    (hWF : mapWF m nid) (h : lookupInst m k = some i)
    (h' : lookupInst m k' = some i) : k = k' := by
  have m1 := lookupInst_mem h
  have m2 := lookupInst_mem h'
  have heq : (k, i) = (k', i) :=
    List.inj_on_of_nodup_map hWF.2 m1 m2 rfl
  exact congrArg Prod.fst heq

/-- Looking up the key just stored finds the stored instance. -/
theorem lookupInst_cons_self (m : List (String × Nat)) (k : String) (i : Nat) :
    lookupInst ((k, i) :: m) k = some i := by
  simp [lookupInst, List.find?]

/-- Storing under one key does not affect lookups of another. -/
theorem lookupInst_cons_ne {m : List (String × Nat)} {k k' : String} {i : Nat}
    (h : k ≠ k') : lookupInst ((k, i) :: m) k' = lookupInst m k' := by
  simp [lookupInst, List.find?, h]

/-- Two consecutive `getInst` calls with the same key return the same
instance. -/
theorem getInst_same (m : List (String × Nat)) (nid : Nat) (k : String) :
    (getInst (getInst m nid k).2.1 (getInst m nid k).2.2 k).1 = (getInst m nid k).1 := by
  cases h : lookupInst m k with
  | some i => simp [getInst, h]
  | none => simp [getInst, h, lookupInst_cons_self]

/-- On a well-formed map, a `getInst` call with a different key returns a
different instance. -/
theorem getInst_diff {m : List (String × Nat)} {nid : Nat} (k k' : String)
    (hWF : mapWF m nid) (hne : k ≠ k') :
    (getInst (getInst m nid k).2.1 (getInst m nid k).2.2 k').1 ≠ (getInst m nid k).1 := by
  cases h : lookupInst m k with
  | some i =>
      simp only [getInst, h]
      cases h' : lookupInst m k' with
      | some i' =>
          simp only [h']
          intro hiq
          exact hne (lookupInst_inj hWF h (hiq ▸ h'))
      | none =>
          simp only [h']
          have := lookupInst_lt hWF h
          omega
  | none =>
      simp only [getInst, h]
      rw [lookupInst_cons_ne hne]
      cases h' : lookupInst m k' with
      | some i' =>
          simp only [h']
          have := lookupInst_lt hWF h'
          omega
      | none =>
          simp only [h']
          omega

/-- A cache miss constructs the next instance and stores it before
returning. -/
theorem getInst_store (m : List (String × Nat)) (nid : Nat) (k : String)
    (h : lookupInst m k = none) :
    (getInst m nid k).1 = nid ∧ lookupInst (getInst m nid k).2.1 k = some nid := by
  simp [getInst, h, lookupInst_cons_self]

/-- No two strings agree after appending `"true"` to one and `"false"` to
the other. -/
theorem suffix_true_false_ne (l1 l2 : List Char) :
    l1 ++ "true".data ≠ l2 ++ "false".data := by
  intro h
  have h1 := congrArg (fun l => l.reverse.get? 1) h
  have e1 : ("true".data).reverse = ['e', 'u', 'r', 't'] := by decide
  have e2 : ("false".data).reverse = ['e', 's', 'l', 'a', 'f'] := by decide
  simp only [List.reverse_append, e1, e2] at h1
  simp [List.get?] at h1

/-- The MyShell composite key is injective: a different key string or a
different voice-cloning flag yields a different composite key. -/
theorem myshellCacheKey_inj {k k' : String} {c c' : Bool}
    (h : myshellCacheKey k c = myshellCacheKey k' c') : k = k' ∧ c = c' := by
  unfold myshellCacheKey at h
  have hd := congrArg String.data h
  cases c <;> cases c' <;> simp only [if_true, if_false, Bool.false_eq_true] at hd ⊢
  · refine ⟨?_, trivial⟩
    have hd' : (k.data ++ "_".data) ++ "false".data = (k'.data ++ "_".data) ++ "false".data := hd
    have := List.append_cancel_right hd'
    have := List.append_cancel_right this
    exact String.ext this
  · exact absurd hd.symm (suffix_true_false_ne _ _)
  · exact absurd hd (suffix_true_false_ne _ _)
  · refine ⟨?_, trivial⟩
    have hd' : (k.data ++ "_".data) ++ "true".data = (k'.data ++ "_".data) ++ "true".data := hd
    have := List.append_cancel_right hd'
    have := List.append_cancel_right this
    exact String.ext this

/-- C7: for every vendor getter, a second call with the identical
composite key returns the very same cached instance (reference equality =
allocation identity); a call with a different composite key — a different
key string, or for MyShell a different voice-cloning flag, the composite
key being injective — returns a different instance; and a first call on a
missing key constructs the instance via the factory (allocating
`s.nextId`) and stores it before returning. -/
theorem claim_c7 (s : CacheState) (hWF : CacheWF s) :
    (∀ k, (getOpenAIInstance (getOpenAIInstance s k).2 k).1 = (getOpenAIInstance s k).1) ∧
    (∀ k, (getGroqInstance (getGroqInstance s k).2 k).1 = (getGroqInstance s k).1) ∧
    (∀ k, (getElevenLabsInstance (getElevenLabsInstance s k).2 k).1 =
      (getElevenLabsInstance s k).1) ∧
    (∀ k c, (getMyShellInstance (getMyShellInstance s k c).2 k c).1 =
      (getMyShellInstance s k c).1) ∧
    (∀ k k', k ≠ k' →
      (getOpenAIInstance (getOpenAIInstance s k).2 k').1 ≠ (getOpenAIInstance s k).1) ∧
    (∀ k k', k ≠ k' →
      (getGroqInstance (getGroqInstance s k).2 k').1 ≠ (getGroqInstance s k).1) ∧
    (∀ k k', k ≠ k' →
      (getElevenLabsInstance (getElevenLabsInstance s k).2 k').1 ≠
        (getElevenLabsInstance s k).1) ∧
    (∀ k c k' c', (k, c) ≠ (k', c') →
      (getMyShellInstance (getMyShellInstance s k c).2 k' c').1 ≠
        (getMyShellInstance s k c).1) ∧
    (∀ k, lookupInst s.openaiInstances k = none →
      (getOpenAIInstance s k).1 = s.nextId ∧
        lookupInst (getOpenAIInstance s k).2.openaiInstances k = some s.nextId) ∧
    (∀ k, lookupInst s.groqInstances k = none →
      (getGroqInstance s k).1 = s.nextId ∧
        lookupInst (getGroqInstance s k).2.groqInstances k = some s.nextId) ∧
    (∀ k, lookupInst s.elevenlabsInstances k = none →
      (getElevenLabsInstance s k).1 = s.nextId ∧
        lookupInst (getElevenLabsInstance s k).2.elevenlabsInstances k = some s.nextId) ∧
    (∀ k c, lookupInst s.myshellInstances (myshellCacheKey k c) = none →
      (getMyShellInstance s k c).1 = s.nextId ∧
        lookupInst (getMyShellInstance s k c).2.myshellInstances (myshellCacheKey k c) =
          some s.nextId) := by
  obtain ⟨hO, hG, hE, hM⟩ := hWF
  refine ⟨?_, ?_, ?_, ?_, ?_, ?_, ?_, ?_, ?_, ?_, ?_, ?_⟩
  · intro k
    simpa [getOpenAIInstance] using getInst_same s.openaiInstances s.nextId k
  · intro k
    simpa [getGroqInstance] using getInst_same s.groqInstances s.nextId k
  · intro k
    simpa [getElevenLabsInstance] using getInst_same s.elevenlabsInstances s.nextId k
  · intro k c
    simpa [getMyShellInstance] using
      getInst_same s.myshellInstances s.nextId (myshellCacheKey k c)
  · intro k k' hne
    simpa [getOpenAIInstance] using getInst_diff k k' hO hne
  · intro k k' hne
    simpa [getGroqInstance] using getInst_diff k k' hG hne
  · intro k k' hne
    simpa [getElevenLabsInstance] using getInst_diff k k' hE hne
  · intro k c k' c' hne
    have hck : myshellCacheKey k c ≠ myshellCacheKey k' c' := by
      intro h
      obtain ⟨h1, h2⟩ := myshellCacheKey_inj h
      exact hne (by rw [h1, h2])
    simpa [getMyShellInstance] using
      getInst_diff (myshellCacheKey k c) (myshellCacheKey k' c') hM hck
  · intro k h
    simpa [getOpenAIInstance] using getInst_store s.openaiInstances s.nextId k h
  · intro k h
    simpa [getGroqInstance] using getInst_store s.groqInstances s.nextId k h
  · intro k h
    simpa [getElevenLabsInstance] using getInst_store s.elevenlabsInstances s.nextId k h
  · intro k c h
    simpa [getMyShellInstance] using
      getInst_store s.myshellInstances s.nextId (myshellCacheKey k c) h

/-- C7 witness: on the empty cache, repeated `"a"` returns the same Groq
instance, `"b"` a different one, and flipping the MyShell voice-cloning
flag a different one. -/
theorem claim_c7_witness :
    CacheWF initialCache ∧
      (getGroqInstance (getGroqInstance initialCache "a").2 "a").1 =
        (getGroqInstance initialCache "a").1 ∧
      (getGroqInstance (getGroqInstance initialCache "a").2 "b").1 ≠
        (getGroqInstance initialCache "a").1 ∧
      (getMyShellInstance (getMyShellInstance initialCache "a" true).2 "a" false).1 ≠
        (getMyShellInstance initialCache "a" true).1 := by
  have hWF : CacheWF initialCache := by
    refine ⟨⟨?_, ?_⟩, ⟨?_, ?_⟩, ⟨?_, ?_⟩, ⟨?_, ?_⟩⟩ <;> simp [initialCache]
  have h := claim_c7 initialCache hWF
  exact ⟨hWF, h.2.1 "a", h.2.2.2.2.2.1 "a" "b" (by decide),
    h.2.2.2.2.2.2.2.1 "a" true "a" false (by decide)⟩

/-- C8: `clearUserInstances` empties all four vendor maps whatever
`userId` it receives, and for every composite key cached before the
invalidation, the next getter call constructs a fresh instance that is not
reference-equal (allocation-identical) to the one cached before. -/
theorem claim_c8 (userId : String) (s : CacheState) (hWF : CacheWF s) :
    ((clearUserInstances userId s).openaiInstances = [] ∧
      (clearUserInstances userId s).groqInstances = [] ∧
      (clearUserInstances userId s).elevenlabsInstances = [] ∧
      (clearUserInstances userId s).myshellInstances = []) ∧
    (∀ k i, lookupInst s.openaiInstances k = some i →
      (getOpenAIInstance (clearUserInstances userId s) k).1 ≠ i) ∧
    (∀ k i, lookupInst s.groqInstances k = some i →
      (getGroqInstance (clearUserInstances userId s) k).1 ≠ i) ∧
    (∀ k i, lookupInst s.elevenlabsInstances k = some i →
      (getElevenLabsInstance (clearUserInstances userId s) k).1 ≠ i) ∧
    (∀ k c i, lookupInst s.myshellInstances (myshellCacheKey k c) = some i →
      (getMyShellInstance (clearUserInstances userId s) k c).1 ≠ i) := by
  obtain ⟨hO, hG, hE, hM⟩ := hWF
  refine ⟨⟨rfl, rfl, rfl, rfl⟩, ?_, ?_, ?_, ?_⟩
  · intro k i h
    have := lookupInst_lt hO h
    simp [getOpenAIInstance, clearUserInstances, getInst, lookupInst]
    omega
  · intro k i h
    have := lookupInst_lt hG h
    simp [getGroqInstance, clearUserInstances, getInst, lookupInst]
    omega
  · intro k i h
    have := lookupInst_lt hE h
    simp [getElevenLabsInstance, clearUserInstances, getInst, lookupInst]
    omega
  · intro k c i h
    have := lookupInst_lt hM h
    simp [getMyShellInstance, clearUserInstances, getInst, lookupInst]
    omega

/-- C8 witness: cache a Groq instance (allocation 0), clear, re-fetch —
the new instance is not the old one. -/
theorem claim_c8_witness :
    CacheWF oneGroqCache ∧
      lookupInst oneGroqCache.groqInstances "a" = some 0 ∧
      (getGroqInstance (clearUserInstances "u1" oneGroqCache) "a").1 ≠ 0 := by
  have hWF : CacheWF oneGroqCache := by
    refine ⟨⟨?_, ?_⟩, ⟨?_, ?_⟩, ⟨?_, ?_⟩, ⟨?_, ?_⟩⟩ <;>
      simp [oneGroqCache, initialCache, getGroqInstance, getInst, lookupInst, List.find?]
  exact ⟨hWF, rfl, (claim_c8 "u1" oneGroqCache hWF).2.2.1 "a" 0 rfl⟩
